import Mathlib

/-!
Verification development for a small MCP server exposing three read-only
query operations against ClinicalTrials.gov.  The server declares three
tools — list_studies, get_study, specific_fields_in_study — each of which
validates its parameters against a zod schema, builds one upstream URL,
performs one GET, and returns either the pretty-printed JSON body or a
formatted error string as a single text content block.

The definitions below are a shallow embedding of that source:
  * `Json` / `stringifyIndent2` model JSON values and the JavaScript call
    JSON.stringify(data, null, 2);
  * `encodeURIComponent` and `formEncode` model the JavaScript string
    encoders used by template interpolation and by URLSearchParams
    serialization respectively;
  * `ListStudiesArgs` / `listStudiesParse` (and the specific-fields
    analogues) model the zod schema layer: required fields reject absence,
    optional fields pass through, defaulted fields apply their defaults;
  * `listStudiesUrl`, `getStudyUrl`, `specificFieldsUrl` model the request
    builders, with `condParam` capturing the JavaScript truthiness test
    `if (x) url.searchParams.set(key, x)` under which an absent or empty
    string sets no key;
  * `handleResponse` and the three respond functions model the shared
    response policy: non-2xx statuses become a descriptive error text,
    2xx statuses become the pretty-printed JSON body; a rejected fetch
    promise escapes the handler as an exception (`Except.error`).
-/

/-! ### JSON values and JSON.stringify(data, null, 2) -/

/-- JSON value as produced by a JavaScript response body.  JavaScript
numbers are IEEE doubles; this embedding restricts numeric leaves to
integers, which covers every numeric value the specification exercises
(`String(20)` is `"20"`, and the worked example body has the single
numeric leaf `1`).  Object fields keep insertion order, exactly as
JavaScript objects and JSON.stringify do. -/
inductive Json where
  | null : Json
  | bool (b : Bool) : Json
  | num (n : Int) : Json
  | str (s : String) : Json
  | arr (elems : List Json) : Json
  | obj (fields : List (String × Json)) : Json
deriving Repr

/-- Lowercase hexadecimal digits, used by the \u00xx escapes of
JSON.stringify. -/
def hexLowerChars : List Char := "0123456789abcdef".data

/-- Lowercase hexadecimal digit of `n` (in-range indices only are ever
used). -/
def hexLower (n : Nat) : Char := hexLowerChars.getD n '0'

/-- One character of a JSON string, escaped as JSON.stringify escapes it:
quote, backslash and the named control characters get two-character
escapes, other control characters get \u00xx, everything else is passed
through unchanged. -/
def jsonEscapeChar (c : Char) : List Char :=
  if c = '"' then ['\\', '"']
  else if c = '\\' then ['\\', '\\']
  else if c = Char.ofNat 8 then ['\\', 'b']
  else if c = '\t' then ['\\', 't']
  else if c = '\n' then ['\\', 'n']
  else if c = Char.ofNat 12 then ['\\', 'f']
  else if c = Char.ofNat 13 then ['\\', 'r']
  else if c.toNat < 32 then
    ['\\', 'u', '0', '0', hexLower (c.toNat / 16), hexLower (c.toNat % 16)]
  else [c]

/-- JSON string literal serialization (QuoteJSONString). -/
def quoteJsonString (s : String) : String :=
  "\"" ++ String.mk (s.data.flatMap jsonEscapeChar) ++ "\""

/-- `2 * n` spaces: the indentation JSON.stringify produces for gap
argument 2 at nesting level `n`. -/
def sp (n : Nat) : String := String.mk (List.replicate (2 * n) ' ')

mutual

/-- JSON.stringify(·, null, 2) at nesting level `lvl`: empty containers
print with no inner whitespace, nonempty containers put each element on
its own line indented two spaces further, keys are followed by a colon
and one space. -/
def stringifyAux (lvl : Nat) : Json → String
  | .null => "null"
  | .bool b => if b then "true" else "false"
  | .num n => toString n
  | .str s => quoteJsonString s
  | .arr [] => "[]"
  | .arr (x :: xs) =>
      "[\n" ++ sp (lvl + 1) ++ stringifyAux (lvl + 1) x ++ arrRest (lvl + 1) xs
        ++ "\n" ++ sp lvl ++ "]"
  | .obj [] => "\x7b\x7d"
  | .obj (p :: ps) =>
      "\x7b\n" ++ sp (lvl + 1) ++ quoteJsonString p.1 ++ ": "
        ++ stringifyAux (lvl + 1) p.2 ++ objRest (lvl + 1) ps
        ++ "\n" ++ sp lvl ++ "\x7d"

/-- Remaining array elements, each preceded by a comma, newline and
indentation. -/
def arrRest (lvl : Nat) : List Json → String
  | [] => ""
  | x :: xs => ",\n" ++ sp lvl ++ stringifyAux lvl x ++ arrRest lvl xs

/-- Remaining object properties, each preceded by a comma, newline and
indentation. -/
def objRest (lvl : Nat) : List (String × Json) → String
  | [] => ""
  | p :: ps =>
      ",\n" ++ sp lvl ++ quoteJsonString p.1 ++ ": " ++ stringifyAux lvl p.2
        ++ objRest lvl ps

end

/-- The serialization JSON.stringify(data, null, 2) used on every success
path of the server. -/
def stringifyIndent2 (j : Json) : String := stringifyAux 0 j

/-! ### JavaScript string encoders -/

/-- UTF-8 encoding of a Unicode scalar value, as a list of byte values. -/
def utf8Bytes (n : Nat) : List Nat :=
  if n < 128 then [n]
  else if n < 2048 then
    [192 + n / 64, 128 + n % 64]
  else if n < 65536 then
    [224 + n / 4096, 128 + (n / 64) % 64, 128 + n % 64]
  else
    [240 + n / 262144, 128 + (n / 4096) % 64, 128 + (n / 64) % 64, 128 + n % 64]

/-- Uppercase hexadecimal digits, used by percent-escapes. -/
def hexUpperChars : List Char := "0123456789ABCDEF".data

/-- Uppercase hexadecimal digit of `n` (in-range indices only are ever
used). -/
def hexUpper (n : Nat) : Char := hexUpperChars.getD n '0'

/-- Percent-escape of one byte: a percent sign followed by two uppercase
hexadecimal digits. -/
def percentByteChars (b : Nat) : List Char := ['%', hexUpper (b / 16), hexUpper (b % 16)]

/-- Characters encodeURIComponent leaves unescaped: ASCII alphanumerics
and - _ . ! ~ * ( ) together with the apostrophe (written as its code
point 39). -/
def isUriComponentUnescaped (c : Char) : Bool :=
  c.isAlphanum || c = '-' || c = '_' || c = '.' || c = '!' || c = '~' || c = '*'
    || c = Char.ofNat 39 || c = '(' || c = ')'

/-- encodeURIComponent on one character: unescaped characters pass
through, every other character is replaced by the percent-escapes of its
UTF-8 bytes. -/
def encodeCharList (c : Char) : List Char :=
  if isUriComponentUnescaped c then [c]
  else (utf8Bytes c.toNat).flatMap percentByteChars

/-- JavaScript encodeURIComponent, used by the get_study handler on the
NCT identifier. -/
def encodeURIComponent (s : String) : String :=
  String.mk (s.data.flatMap encodeCharList)

/-- Characters the application/x-www-form-urlencoded serializer leaves
unescaped: ASCII alphanumerics and * - . _ (space becomes a plus sign,
handled separately). -/
def isFormUnescaped (c : Char) : Bool :=
  c.isAlphanum || c = '*' || c = '-' || c = '.' || c = '_'

/-- One character under the form-urlencoded serializer used by
URLSearchParams when a URL object is stringified. -/
def formEncodeChar (c : Char) : List Char :=
  if c = ' ' then ['+']
  else if isFormUnescaped c then [c]
  else (utf8Bytes c.toNat).flatMap percentByteChars

/-- application/x-www-form-urlencoded serialization of one string. -/
def formEncode (s : String) : String := String.mk (s.data.flatMap formEncodeChar)

/-! ### URL model -/

/-- Upstream base endpoint. -/
def BASE_URL : String := "https://clinicaltrials.gov/api/v2"

/-- A URL object as the handlers build it: a path and the state of its
searchParams.  `URLSearchParams.set` with a key not yet present appends
the pair, preserving insertion order; all keys the handlers set are
distinct, so the params list is exactly the sequence of set calls that
fired. -/
structure BuiltUrl where
  path : String
  params : List (String × String)
deriving Repr, DecidableEq

/-- Serialization of the searchParams, ampersand-separated
form-urlencoded key=value pairs in insertion order. -/
def serializeQuery (ps : List (String × String)) : String :=
  String.intercalate "&" (ps.map (fun p => formEncode p.1 ++ "=" ++ formEncode p.2))

/-- url.toString(): the path, then a question mark and the serialized
query when any parameter is set. -/
def urlToString (u : BuiltUrl) : String :=
  if u.params = [] then u.path else u.path ++ "?" ++ serializeQuery u.params

/-! ### Schema layer (zod) -/

/-- Raw arguments offered to the list_studies schema: every declared key
may be present or absent.  `z.string()` accepts any string (including
the empty string) and rejects absence; `.optional()` additionally accepts
absence; `.default(v)` substitutes `v` for absence.  `pageSize` is
`z.number()`, a JavaScript double; the embedding restricts it to
integers, which covers every numeric behavior the claims exercise. -/
structure ListStudiesArgs where
  cond : Option String
  term : Option String
  locn : Option String
  overallStatus : Option String
  pageSize : Option Int
  format : Option String
  fields : Option String
  countTotal : Option String
  pageToken : Option String
deriving Repr, DecidableEq

/-- Validated list_studies input after zod parsing and the handler's
destructuring defaults. -/
structure ListStudiesInput where
  cond : String
  term : Option String
  locn : Option String
  overallStatus : Option String
  pageSize : Int
  format : String
  fields : Option String
  countTotal : String
  pageToken : Option String
deriving Repr, DecidableEq

/-- zod validation for list_studies: `cond` is required (absence is a
schema error), the optional keys pass through, and the defaulted keys
receive 20, "json" and "true" when absent. -/
def listStudiesParse (a : ListStudiesArgs) : Except String ListStudiesInput :=
  match a.cond with
  | none => Except.error "invalid_type: required key cond is absent"
  | some c =>
      Except.ok
        { cond := c
          term := a.term
          locn := a.locn
          overallStatus := a.overallStatus
          pageSize := a.pageSize.getD 20
          format := a.format.getD "json"
          fields := a.fields
          countTotal := a.countTotal.getD "true"
          pageToken := a.pageToken }

/-- Raw arguments offered to the specific_fields_in_study schema: same
keys as list_studies, but `fields` is declared `z.string()` with no
`.optional()`, so absence is a schema error. -/
structure SpecificFieldsArgs where
  cond : Option String
  fields : Option String
  term : Option String
  locn : Option String
  overallStatus : Option String
  pageSize : Option Int
  format : Option String
  countTotal : Option String
  pageToken : Option String
deriving Repr, DecidableEq

/-- Validated specific_fields_in_study input. -/
structure SpecificFieldsInput where
  cond : String
  fields : String
  term : Option String
  locn : Option String
  overallStatus : Option String
  pageSize : Int
  format : String
  countTotal : String
  pageToken : Option String
deriving Repr, DecidableEq

/-- zod validation for specific_fields_in_study: `cond` and `fields` are
required, the rest as in list_studies. -/
def specificFieldsParse (a : SpecificFieldsArgs) : Except String SpecificFieldsInput :=
  match a.cond, a.fields with
  | none, _ => Except.error "invalid_type: required key cond is absent"
  | _, none => Except.error "invalid_type: required key fields is absent"
  | some c, some f =>
      Except.ok
        { cond := c
          fields := f
          term := a.term
          locn := a.locn
          overallStatus := a.overallStatus
          pageSize := a.pageSize.getD 20
          format := a.format.getD "json"
          countTotal := a.countTotal.getD "true"
          pageToken := a.pageToken }

/-! ### Request builders -/

/-- The conditional set pattern `if (x) url.searchParams.set(key, x)`:
under JavaScript truthiness an absent value or the empty string fires no
set, any other string appends the pair. -/
def condParam (key : String) (v : Option String) : List (String × String) :=
  match v with
  | none => []
  | some s => if s = "" then [] else [(key, s)]

/-- URL built by the list_studies handler: query.cond always set first,
then the five conditional keys in source order, then pageSize, format and
countTotal always set. -/
def listStudiesUrl (i : ListStudiesInput) : BuiltUrl :=
  { path := BASE_URL ++ "/studies"
    params :=
      [("query.cond", i.cond)]
        ++ condParam "query.term" i.term
        ++ condParam "query.locn" i.locn
        ++ condParam "filter.overallStatus" i.overallStatus
        ++ condParam "fields" i.fields
        ++ condParam "pageToken" i.pageToken
        ++ [("pageSize", toString i.pageSize), ("format", i.format),
            ("countTotal", i.countTotal)] }

/-- URL built by the get_study handler: plain string interpolation of the
percent-encoded identifier onto the single-study path; no URL object and
no query parameters. -/
def getStudyUrl (nct_id : String) : String :=
  BASE_URL ++ "/studies/" ++ encodeURIComponent nct_id

/-- URL built by the specific_fields_in_study handler: query.cond then
fields always set, then the four conditional keys in source order, then
pageSize, format and countTotal always set. -/
def specificFieldsUrl (i : SpecificFieldsInput) : BuiltUrl :=
  { path := BASE_URL ++ "/studies"
    params :=
      [("query.cond", i.cond), ("fields", i.fields)]
        ++ condParam "query.term" i.term
        ++ condParam "query.locn" i.locn
        ++ condParam "filter.overallStatus" i.overallStatus
        ++ condParam "pageToken" i.pageToken
        ++ [("pageSize", toString i.pageSize), ("format", i.format),
            ("countTotal", i.countTotal)] }

/-- The validated-then-built request of list_studies: `none` when the
schema layer rejects, so no URL is ever constructed for rejected input. -/
def listStudiesRequest (a : ListStudiesArgs) : Option BuiltUrl :=
  (listStudiesParse a).toOption.map listStudiesUrl

/-- The validated-then-built request of specific_fields_in_study. -/
def specificFieldsRequest (a : SpecificFieldsArgs) : Option BuiltUrl :=
  (specificFieldsParse a).toOption.map specificFieldsUrl

/-- The list_studies input corresponding to a specific_fields_in_study
input: identical fields, with the mandatory `fields` carried as a present
optional. -/
def specificToListInput (s : SpecificFieldsInput) : ListStudiesInput :=
  { cond := s.cond
    term := s.term
    locn := s.locn
    overallStatus := s.overallStatus
    pageSize := s.pageSize
    format := s.format
    fields := some s.fields
    countTotal := s.countTotal
    pageToken := s.pageToken }

/-! ### Upstream response handling -/

/-- The upstream HTTP response as the handlers observe it: `bodyText` is
what res.text() yields on the error path, `bodyJson` is what res.json()
yields on the success path. -/
structure UpstreamResponse where
  status : Nat
  statusText : String
  bodyText : String
  bodyJson : Json

/-- res.ok: status in the inclusive range 200 to 299. -/
def respOk (r : UpstreamResponse) : Bool :=
  decide (200 ≤ r.status) && decide (r.status ≤ 299)

/-- The formatted error string every handler produces on a non-2xx
response. -/
def errorText (r : UpstreamResponse) : String :=
  "ClinicalTrials.gov error: " ++ toString r.status ++ " " ++ r.statusText
    ++ "\n" ++ r.bodyText

/-- One content block of a tool result; the server only ever emits text
blocks. -/
inductive ContentBlock where
  | text (s : String) : ContentBlock
deriving Repr, DecidableEq

/-- The tool result envelope: a list of content blocks (always a
singleton in this server). -/
structure ToolResult where
  content : List ContentBlock
deriving Repr, DecidableEq

/-- The response policy every handler shares: on a non-2xx status return
the formatted error text, on 2xx return the pretty-printed JSON body. -/
def handleResponse (r : UpstreamResponse) : ToolResult :=
  if respOk r then { content := [ContentBlock.text (stringifyIndent2 r.bodyJson)] }
  else { content := [ContentBlock.text (errorText r)] }

/-- Outcome of `await fetch(url)`: the promise resolves with a response
(of any status) or rejects with a transport error. -/
inductive FetchResult where
  | resolved (r : UpstreamResponse) : FetchResult
  | rejected (e : String) : FetchResult

/-- The list_studies handler from the fetch onward: no try/catch wraps
the await, so a rejected fetch escapes the handler as an exception. -/
def listStudiesRespond (_i : ListStudiesInput) (fr : FetchResult) :
    Except String ToolResult :=
  match fr with
  | FetchResult.rejected e => Except.error e
  | FetchResult.resolved r => Except.ok (handleResponse r)

/-- The get_study handler from the fetch onward (same shape as
list_studies). -/
def getStudyRespond (_nct_id : String) (fr : FetchResult) :
    Except String ToolResult :=
  match fr with
  | FetchResult.rejected e => Except.error e
  | FetchResult.resolved r => Except.ok (handleResponse r)

/-- The specific_fields_in_study handler from the fetch onward (same
shape as list_studies). -/
def specificFieldsRespond (_i : SpecificFieldsInput) (fr : FetchResult) :
    Except String ToolResult :=
  match fr with
  | FetchResult.rejected e => Except.error e
  | FetchResult.resolved r => Except.ok (handleResponse r)

/-- Modelled from the spec: the tool-protocol library that invokes the
handlers is external and not under src/.  Per the specification, a
transport-level fetch failure "surfaces as a network-error text in the
result": an exception escaping a handler is converted by that library
into a text result carrying the error description. -/
def dispatchOutcome (h : Except String ToolResult) : ToolResult :=
  match h with
  | Except.ok r => r
  | Except.error e => { content := [ContentBlock.text e] }

/-! ### Helper lemmas -/

/-- Membership in a conditionally set parameter: the pair is present
exactly when the key matches and the value was supplied non-empty. -/
theorem mem_condParam (k k2 v : String) (o : Option String) :
    (k, v) ∈ condParam k2 o ↔ k = k2 ∧ o = some v ∧ v ≠ "" := by
  rcases o with _ | t
  · simp [condParam]
  · by_cases ht : t = "" <;> simp [condParam, ht] <;> aesop

/-! ### Claim theorems -/

/-- C1: for every valid invocation of list_studies, the constructed URL
carries query.cond set to the given cond value, and always carries the
keys pageSize, format and countTotal, whose values are 20, "json" and
"true" whenever those parameters were not supplied. -/
theorem specC1 (a : ListStudiesArgs) (i : ListStudiesInput)
    (h : listStudiesParse a = Except.ok i) :
    a.cond = some i.cond
      ∧ ("query.cond", i.cond) ∈ (listStudiesUrl i).params
      ∧ ("pageSize", toString i.pageSize) ∈ (listStudiesUrl i).params
      ∧ ("format", i.format) ∈ (listStudiesUrl i).params
      ∧ ("countTotal", i.countTotal) ∈ (listStudiesUrl i).params
      ∧ (a.pageSize = none → i.pageSize = 20)
      ∧ (a.format = none → i.format = "json")
      ∧ (a.countTotal = none → i.countTotal = "true") := by
  rcases ha : a.cond with _ | c
  · unfold listStudiesParse at h
    rw [ha] at h
    exact absurd h (by simp)
  · unfold listStudiesParse at h
    rw [ha] at h
    injection h with h2
    subst h2
    refine ⟨rfl, ?_, ?_, ?_, ?_, ?_, ?_, ?_⟩
    · simp [listStudiesUrl]
    · simp [listStudiesUrl]
    · simp [listStudiesUrl]
    · simp [listStudiesUrl]
    · intro h0; simp [h0]
    · intro h0; simp [h0]
    · intro h0; simp [h0]

/-- C1 witness: a concrete invocation supplying only cond. -/
theorem specC1_witness :
    ("query.cond", "c")
        ∈ (listStudiesUrl ⟨"c", none, none, none, 20, "json", none, "true", none⟩).params
      ∧ ("pageSize", "20")
        ∈ (listStudiesUrl ⟨"c", none, none, none, 20, "json", none, "true", none⟩).params
      ∧ ("format", "json")
        ∈ (listStudiesUrl ⟨"c", none, none, none, 20, "json", none, "true", none⟩).params
      ∧ ("countTotal", "true")
        ∈ (listStudiesUrl ⟨"c", none, none, none, 20, "json", none, "true", none⟩).params := by
  have h := specC1 ⟨some "c", none, none, none, none, none, none, none, none⟩
      ⟨"c", none, none, none, 20, "json", none, "true", none⟩ rfl
  exact ⟨h.2.1, h.2.2.1, h.2.2.2.1, h.2.2.2.2.1⟩

/-- C2 counterexample: term supplied as the empty string is a present
optional parameter, yet the constructed URL carries no query.term key, so
a present optional parameter does not always appear. -/
theorem specC2_counterexample :
    listStudiesParse
        ⟨some "c", some "", none, none, none, none, none, none, none⟩
      = Except.ok ⟨"c", some "", none, none, 20, "json", none, "true", none⟩
    ∧ ("query.term", "")
        ∉ (listStudiesUrl ⟨"c", some "", none, none, 20, "json", none, "true", none⟩).params := by
  constructor
  · rfl
  · decide

/-- C2 (amended): an optional parameter absent from the input never
appears as a query key, and an optional parameter supplied as a non-empty
string always appears carrying exactly the given value; an optional
parameter supplied as the empty string is dropped. -/
theorem specC2_amended (i : ListStudiesInput) (s : SpecificFieldsInput) (v : String) :
    (("query.term", v) ∈ (listStudiesUrl i).params ↔ i.term = some v ∧ v ≠ "")
      ∧ (("query.locn", v) ∈ (listStudiesUrl i).params ↔ i.locn = some v ∧ v ≠ "")
      ∧ (("filter.overallStatus", v) ∈ (listStudiesUrl i).params
          ↔ i.overallStatus = some v ∧ v ≠ "")
      ∧ (("fields", v) ∈ (listStudiesUrl i).params ↔ i.fields = some v ∧ v ≠ "")
      ∧ (("pageToken", v) ∈ (listStudiesUrl i).params ↔ i.pageToken = some v ∧ v ≠ "")
      ∧ (("query.term", v) ∈ (specificFieldsUrl s).params ↔ s.term = some v ∧ v ≠ "")
      ∧ (("query.locn", v) ∈ (specificFieldsUrl s).params ↔ s.locn = some v ∧ v ≠ "")
      ∧ (("filter.overallStatus", v) ∈ (specificFieldsUrl s).params
          ↔ s.overallStatus = some v ∧ v ≠ "")
      ∧ (("pageToken", v) ∈ (specificFieldsUrl s).params ↔ s.pageToken = some v ∧ v ≠ "") := by
  refine ⟨?_, ?_, ?_, ?_, ?_, ?_, ?_, ?_, ?_⟩ <;>
    simp [listStudiesUrl, specificFieldsUrl, mem_condParam]

/-- C2 amended witness: a concrete present non-empty term appears with
its exact value. -/
theorem specC2_amended_witness :
    ("query.term", "t")
      ∈ (listStudiesUrl ⟨"c", some "t", none, none, 20, "json", none, "true", none⟩).params := by
  have h := specC2_amended ⟨"c", some "t", none, none, 20, "json", none, "true", none⟩
      ⟨"c", "f", none, none, none, 20, "json", "true", none⟩ "t"
  exact h.1.mpr ⟨rfl, by decide⟩

/-- C10: an optional text parameter supplied as the empty string produces
exactly the URL produced when that parameter is absent, for every
optional key of both list-type operations. -/
theorem specC10 (i : ListStudiesInput) (s : SpecificFieldsInput) :
    listStudiesUrl { i with term := some "" } = listStudiesUrl { i with term := none }
      ∧ listStudiesUrl { i with locn := some "" } = listStudiesUrl { i with locn := none }
      ∧ listStudiesUrl { i with overallStatus := some "" }
          = listStudiesUrl { i with overallStatus := none }
      ∧ listStudiesUrl { i with fields := some "" } = listStudiesUrl { i with fields := none }
      ∧ listStudiesUrl { i with pageToken := some "" }
          = listStudiesUrl { i with pageToken := none }
      ∧ specificFieldsUrl { s with term := some "" } = specificFieldsUrl { s with term := none }
      ∧ specificFieldsUrl { s with locn := some "" } = specificFieldsUrl { s with locn := none }
      ∧ specificFieldsUrl { s with overallStatus := some "" }
          = specificFieldsUrl { s with overallStatus := none }
      ∧ specificFieldsUrl { s with pageToken := some "" }
          = specificFieldsUrl { s with pageToken := none } :=
  ⟨rfl, rfl, rfl, rfl, rfl, rfl, rfl, rfl, rfl⟩

/-- C3: on any upstream non-2xx response, each of the three operations
returns a normal (non-exceptional) result whose single text block is
"ClinicalTrials.gov error: " followed by the status code, a space, the
status text, a newline and the raw response body. -/
theorem specC3 (i : ListStudiesInput) (nct : String) (s : SpecificFieldsInput)
    (r : UpstreamResponse) (h : ¬ (200 ≤ r.status ∧ r.status ≤ 299)) :
    listStudiesRespond i (FetchResult.resolved r)
        = Except.ok { content := [ContentBlock.text
            ("ClinicalTrials.gov error: " ++ toString r.status ++ " "
              ++ r.statusText ++ "\n" ++ r.bodyText)] }
      ∧ getStudyRespond nct (FetchResult.resolved r)
        = Except.ok { content := [ContentBlock.text
            ("ClinicalTrials.gov error: " ++ toString r.status ++ " "
              ++ r.statusText ++ "\n" ++ r.bodyText)] }
      ∧ specificFieldsRespond s (FetchResult.resolved r)
        = Except.ok { content := [ContentBlock.text
            ("ClinicalTrials.gov error: " ++ toString r.status ++ " "
              ++ r.statusText ++ "\n" ++ r.bodyText)] } := by
  have hok : ¬ respOk r = true := by simpa [respOk] using h
  refine ⟨?_, ?_, ?_⟩ <;>
    simp [listStudiesRespond, getStudyRespond, specificFieldsRespond,
      handleResponse, hok, errorText]

/-- C3 witness: a 404 response with body "not found" yields the error
text containing 404 and not found, and not a JSON body, in all three
operations. -/
theorem specC3_witness :
    listStudiesRespond ⟨"c", none, none, none, 20, "json", none, "true", none⟩
        (FetchResult.resolved ⟨404, "Not Found", "not found", Json.null⟩)
      = Except.ok { content := [ContentBlock.text
          "ClinicalTrials.gov error: 404 Not Found\nnot found"] }
      ∧ getStudyRespond "NCT04267848"
          (FetchResult.resolved ⟨404, "Not Found", "not found", Json.null⟩)
        = Except.ok { content := [ContentBlock.text
            "ClinicalTrials.gov error: 404 Not Found\nnot found"] }
      ∧ specificFieldsRespond ⟨"c", "f", none, none, none, 20, "json", "true", none⟩
          (FetchResult.resolved ⟨404, "Not Found", "not found", Json.null⟩)
        = Except.ok { content := [ContentBlock.text
            "ClinicalTrials.gov error: 404 Not Found\nnot found"] } := by
  have h := specC3 ⟨"c", none, none, none, 20, "json", none, "true", none⟩
      "NCT04267848" ⟨"c", "f", none, none, none, 20, "json", "true", none⟩
      ⟨404, "Not Found", "not found", Json.null⟩ (by decide)
  exact h

/-- C4: on any upstream 2xx response, each of the three operations
returns a single text block whose text is the two-space-indented
pretty-printed serialization of exactly the JSON payload of the
response, with no field filtering or transformation. -/
theorem specC4 (i : ListStudiesInput) (nct : String) (s : SpecificFieldsInput)
    (r : UpstreamResponse) (h1 : 200 ≤ r.status) (h2 : r.status ≤ 299) :
    listStudiesRespond i (FetchResult.resolved r)
        = Except.ok { content := [ContentBlock.text (stringifyIndent2 r.bodyJson)] }
      ∧ getStudyRespond nct (FetchResult.resolved r)
        = Except.ok { content := [ContentBlock.text (stringifyIndent2 r.bodyJson)] }
      ∧ specificFieldsRespond s (FetchResult.resolved r)
        = Except.ok { content := [ContentBlock.text (stringifyIndent2 r.bodyJson)] } := by
  have hok : respOk r = true := by simp [respOk]; exact ⟨h1, h2⟩
  refine ⟨?_, ?_, ?_⟩ <;>
    simp [listStudiesRespond, getStudyRespond, specificFieldsRespond,
      handleResponse, hok]

/-- C4 witness: a 200 response whose JSON body is the object with the
single field a mapped to 1 yields exactly its pretty-printed form. -/
theorem specC4_witness :
    stringifyIndent2 (Json.obj [("a", Json.num 1)]) = "\x7b\n  \"a\": 1\n\x7d"
      ∧ listStudiesRespond ⟨"c", none, none, none, 20, "json", none, "true", none⟩
          (FetchResult.resolved ⟨200, "OK", "\x7b\"a\":1\x7d", Json.obj [("a", Json.num 1)]⟩)
        = Except.ok { content := [ContentBlock.text "\x7b\n  \"a\": 1\n\x7d"] }
      ∧ getStudyRespond "NCT04267848"
          (FetchResult.resolved ⟨200, "OK", "\x7b\"a\":1\x7d", Json.obj [("a", Json.num 1)]⟩)
        = Except.ok { content := [ContentBlock.text "\x7b\n  \"a\": 1\n\x7d"] }
      ∧ specificFieldsRespond ⟨"c", "f", none, none, none, 20, "json", "true", none⟩
          (FetchResult.resolved ⟨200, "OK", "\x7b\"a\":1\x7d", Json.obj [("a", Json.num 1)]⟩)
        = Except.ok { content := [ContentBlock.text "\x7b\n  \"a\": 1\n\x7d"] } := by
  have h := specC4 ⟨"c", none, none, none, 20, "json", none, "true", none⟩
      "NCT04267848" ⟨"c", "f", none, none, none, 20, "json", "true", none⟩
      ⟨200, "OK", "\x7b\"a\":1\x7d", Json.obj [("a", Json.num 1)]⟩
      (by decide) (by decide)
  exact ⟨by decide, h.1, h.2.1, h.2.2⟩

/-- C8: when the outbound fetch itself fails (the promise rejects with a
transport error), each of the three operations still yields a result
whose text is the network error description; the exception does not
propagate past the protocol dispatch layer. -/
theorem specC8 (i : ListStudiesInput) (nct : String) (s : SpecificFieldsInput)
    (e : String) :
    dispatchOutcome (listStudiesRespond i (FetchResult.rejected e))
        = { content := [ContentBlock.text e] }
      ∧ dispatchOutcome (getStudyRespond nct (FetchResult.rejected e))
        = { content := [ContentBlock.text e] }
      ∧ dispatchOutcome (specificFieldsRespond s (FetchResult.rejected e))
        = { content := [ContentBlock.text e] } :=
  ⟨rfl, rfl, rfl⟩

/-- C5 counterexample: with a non-empty term supplied, the two list-type
operations place the fields key at different positions, so the
constructed URL strings differ. -/
theorem specC5_counterexample :
    urlToString (listStudiesUrl
        (specificToListInput ⟨"c", "f", some "t", none, none, 20, "json", "true", none⟩))
      ≠ urlToString (specificFieldsUrl ⟨"c", "f", some "t", none, none, 20, "json", "true", none⟩) := by
  decide

/-- C5 (amended): for every input on which both operations are valid
with a non-empty fields value, specific_fields_in_study constructs a
request carrying exactly the same query key-value pairs as list_studies
does for the same input; the pairs can however appear in a different
order in the query string, because specific_fields_in_study sets fields
immediately after query.cond while list_studies sets it after the other
conditional keys. -/
theorem specC5_amended (s : SpecificFieldsInput) (h : s.fields ≠ "") :
    (listStudiesUrl (specificToListInput s)).params.Perm (specificFieldsUrl s).params := by
  have hf : condParam "fields" (some s.fields) = [("fields", s.fields)] := by
    simp [condParam, h]
  have hp := @List.perm_middle (String × String) ("fields", s.fields)
      (condParam "query.term" s.term ++ condParam "query.locn" s.locn
        ++ condParam "filter.overallStatus" s.overallStatus)
      (condParam "pageToken" s.pageToken
        ++ [("pageSize", toString s.pageSize), ("format", s.format),
            ("countTotal", s.countTotal)])
  simp only [listStudiesUrl, specificFieldsUrl, specificToListInput, hf,
    List.cons_append, List.nil_append, List.append_assoc]
  refine List.Perm.cons _ ?_
  simpa [List.append_assoc] using hp

/-- C5 amended witness: a concrete input with non-empty fields on which
the permutation holds. -/
theorem specC5_amended_witness :
    (listStudiesUrl
        (specificToListInput ⟨"c", "f", some "t", none, none, 20, "json", "true", none⟩)).params.Perm
      (specificFieldsUrl ⟨"c", "f", some "t", none, none, 20, "json", "true", none⟩).params :=
  specC5_amended ⟨"c", "f", some "t", none, none, 20, "json", "true", none⟩ (by decide)

/-- C6: every specific_fields_in_study invocation that reaches the
upstream call carries a fields query key, and an invocation omitting
fields is rejected by the schema layer, so no request is constructed for
it. -/
theorem specC6 :
    (∀ s : SpecificFieldsInput, ("fields", s.fields) ∈ (specificFieldsUrl s).params)
      ∧ (∀ a : SpecificFieldsArgs, a.fields = none → specificFieldsRequest a = none) := by
  constructor
  · intro s
    simp [specificFieldsUrl]
  · intro a h
    unfold specificFieldsRequest specificFieldsParse
    rw [h]
    rcases a.cond with _ | c <;> rfl

/-- C6 witness: a concrete valid invocation carries the fields key, and
a concrete invocation omitting fields constructs no request. -/
theorem specC6_witness :
    ("fields", "f") ∈ (specificFieldsUrl ⟨"c", "f", none, none, none, 20, "json", "true", none⟩).params
      ∧ specificFieldsRequest ⟨some "c", none, none, none, none, none, none, none, none⟩ = none :=
  ⟨specC6.1 ⟨"c", "f", none, none, none, 20, "json", "true", none⟩,
    specC6.2 ⟨some "c", none, none, none, none, none, none, none, none⟩ rfl⟩

/-- The uppercase hexadecimal digit function only ever yields one of the
sixteen digit characters. -/
theorem hexUpper_mem (n : Nat) : hexUpper n ∈ hexUpperChars := by
  unfold hexUpper
  by_cases h : n < 16
  · interval_cases n <;> decide
  · have hlen : hexUpperChars.length = 16 := rfl
    have h16 : hexUpperChars.length ≤ n := by omega
    rw [List.getD_eq_default _ _ h16]
    decide

/-- No hexadecimal digit is a question mark. -/
theorem hexUpper_ne_qmark (n : Nat) : hexUpper n ≠ '?' := by
  intro h
  have hm := hexUpper_mem n
  rw [h] at hm
  exact absurd hm (by decide)

/-- A percent-escape contains no question mark. -/
theorem qmark_not_mem_percentByteChars (b : Nat) : '?' ∉ percentByteChars b := by
  intro h
  simp only [percentByteChars, List.mem_cons, List.not_mem_nil, or_false] at h
  rcases h with h | h | h
  · exact absurd h (by decide)
  · exact hexUpper_ne_qmark _ h.symm
  · exact hexUpper_ne_qmark _ h.symm

/-- The encoding of one character contains no question mark: an
unescaped character is never a question mark (the question mark is not in
the unescaped set), and escaped characters expand to percent-escapes. -/
theorem qmark_not_mem_encodeCharList (c : Char) : '?' ∉ encodeCharList c := by
  intro h
  unfold encodeCharList at h
  split at h
  · next hc =>
    simp only [List.mem_singleton] at h
    rw [← h] at hc
    exact absurd hc (by decide)
  · next hc =>
    rw [List.mem_flatMap] at h
    obtain ⟨b, -, hb⟩ := h
    exact qmark_not_mem_percentByteChars b hb

/-- encodeURIComponent never emits a question mark. -/
theorem qmark_not_mem_encodeURIComponent (s : String) :
    '?' ∉ (encodeURIComponent s).data := by
  intro h
  have hd : (encodeURIComponent s).data = s.data.flatMap encodeCharList := rfl
  rw [hd, List.mem_flatMap] at h
  obtain ⟨c, -, hc⟩ := h
  exact qmark_not_mem_encodeCharList c hc

/-- C7: for every nct_id, get_study builds exactly the fixed single-study
path followed by the percent-encoded identifier, the resulting URL
contains no question mark and hence no query string, and the worked
identifier NCT04267848 produces the expected URL. -/
theorem specC7 (nct : String) :
    getStudyUrl nct = "https://clinicaltrials.gov/api/v2/studies/" ++ encodeURIComponent nct
      ∧ '?' ∉ (getStudyUrl nct).data
      ∧ getStudyUrl "NCT04267848" = "https://clinicaltrials.gov/api/v2/studies/NCT04267848" := by
  refine ⟨rfl, ?_, by decide⟩
  intro h
  rw [show getStudyUrl nct
        = "https://clinicaltrials.gov/api/v2/studies/" ++ encodeURIComponent nct from rfl,
    String.data_append, List.mem_append] at h
  rcases h with h | h
  · exact absurd h (by decide)
  · exact qmark_not_mem_encodeURIComponent nct h

/-- C9 counterexample: the schema accepts cond supplied as the empty
string, so a request is constructed whose URL carries query.cond with
the empty value — the empty string is not rejected. -/
theorem specC9_counterexample :
    listStudiesRequest ⟨some "", none, none, none, none, none, none, none, none⟩
        = some (listStudiesUrl ⟨"", none, none, none, 20, "json", none, "true", none⟩)
      ∧ ("query.cond", "")
        ∈ (listStudiesUrl ⟨"", none, none, none, 20, "json", none, "true", none⟩).params := by
  constructor
  · rfl
  · decide

/-- C9 (amended): cond is required: an invocation omitting cond is
rejected by the schema layer and no request is constructed; but the
empty string is accepted by the schema, and the request constructed for
it carries query.cond with the empty value. -/
theorem specC9_amended (a : ListStudiesArgs) :
    (a.cond = none → listStudiesRequest a = none)
      ∧ (a.cond = some "" →
          listStudiesRequest a
            = some (listStudiesUrl
                ⟨"", a.term, a.locn, a.overallStatus, a.pageSize.getD 20,
                  a.format.getD "json", a.fields, a.countTotal.getD "true", a.pageToken⟩))
      ∧ ("query.cond", "")
        ∈ (listStudiesUrl
            ⟨"", a.term, a.locn, a.overallStatus, a.pageSize.getD 20,
              a.format.getD "json", a.fields, a.countTotal.getD "true", a.pageToken⟩).params := by
  refine ⟨?_, ?_, ?_⟩
  · intro h
    simp [listStudiesRequest, listStudiesParse, h, Except.toOption]
  · intro h
    simp [listStudiesRequest, listStudiesParse, h, Except.toOption]
  · simp [listStudiesUrl]

/-- C9 amended witness: omitting cond constructs no request; supplying
it empty constructs a request with an empty query.cond value. -/
theorem specC9_witness :
    listStudiesRequest ⟨none, none, none, none, none, none, none, none, none⟩ = none
      ∧ listStudiesRequest ⟨some "", none, none, none, none, none, none, none, none⟩
        = some (listStudiesUrl ⟨"", none, none, none, 20, "json", none, "true", none⟩) := by
  refine ⟨(specC9_amended ⟨none, none, none, none, none, none, none, none, none⟩).1 rfl, ?_⟩
  have h := (specC9_amended ⟨some "", none, none, none, none, none, none, none, none⟩).2.1 rfl
  exact h
